import Mathlib

/-!
Verification development for the magnetic-label export tool
(`export_label.py`).

Modelling conventions:
* Python strings are lists of characters (`PyStr`).
* Python numbers are rationals (`ℚ`); the builtin `round` (which rounds
  half to even) is `pyRound : ℚ → ℤ`.
* External effects (the filesystem, the OpenSCAD engine, the PIL font
  library) are supplied through an explicit environment record `Env`;
  the functions of the program are deterministic in that environment.
* Temporary-file cleanup in the OpenSCAD measurement strategy is tracked
  by the `TempState` component of its result.
-/

namespace ExportLabel

/-- Python strings, modelled as lists of characters. -/
abbrev PyStr := List Char

/-- Coerce a Lean string literal to the `PyStr` model. -/
def pystr (s : String) : PyStr := s.toList

/-- `str.lower()`. -/
def pyLower (s : PyStr) : PyStr := s.map Char.toLower

/-- Python's substring operator `needle in hay`: `needle` occurs as a
contiguous substring of `hay`. -/
def pyIn (needle : PyStr) : PyStr → Bool
  | [] => needle.isEmpty
  | c :: t => needle.isPrefixOf (c :: t) || pyIn needle t

/-! ### The `DEFAULTS` table (source lines 81–90) -/

def default_font_size : ℚ := 12
def border_width : ℚ := 2
def corner_radius : ℚ := 8
def min_padding : ℚ := 4
def min_width : ℚ := 30
def min_height : ℚ := 15
def magnet_inset : ℚ := 10
def magnet_diameter : ℚ := 6

/-- Python's builtin `round` to an integer: round half to even
(banker's rounding).  The parity test is written as `⌊x⌋ % 2 = 0`. -/
def pyRound (x : ℚ) : ℤ :=
  if x - ⌊x⌋ < 1/2 then ⌊x⌋
  else if 1/2 < x - ⌊x⌋ then ⌊x⌋ + 1
  else if ⌊x⌋ % 2 = 0 then ⌊x⌋ else ⌊x⌋ + 1

/-! ### External environment -/

/-- Outcome of the `subprocess.run` call that renders the measurement
geometry.  `exception` models a raised exception (e.g. the 30 s timeout);
`done` carries the return code, whether the `.stl` output file exists,
and the vertex coordinates parsed from it (the text-plane X/Y of each
`vertex` line; the file content is abstracted to those pairs). -/
inductive EngineOutcome
  | exception (stlCreated : Bool)
  | done (returncode : ℤ) (stlCreated : Bool) (vertices : List (ℚ × ℚ))

/-- Glyph bounding boxes `(x0, y0, x1, y1)` obtained from the PIL font
library: `capBbox` for the reference glyph `"H"` at the reference size,
`textBbox` for the target text at the scaled pixel size. -/
structure FontMetrics where
  capBbox : ℤ × ℤ × ℤ × ℤ
  textBbox : ℤ × ℤ × ℤ × ℤ

/-- The ambient world the program runs in: filesystem queries, the
OpenSCAD engine, and the PIL measurements.  `dirListing` returns `none`
when the path is not a directory; `pilMetrics = none` models the font
library raising. -/
structure Env where
  isFile : PyStr → Bool
  dirListing : PyStr → Option (List PyStr)
  openscadAvailable : Bool
  engine : EngineOutcome
  pilMetrics : Option FontMetrics

/-- Which of the two temporary files created by the OpenSCAD measurement
remain on disk when it returns. -/
structure TempState where
  scadLeft : Bool
  stlLeft : Bool
deriving DecidableEq

/-! ### `find_font` (source lines 108–131) -/

/-- The `FONT_PATHS` table (source lines 40–55). -/
def FONT_PATHS : List (PyStr × List PyStr) :=
  [ (pystr "Arial",
     [ pystr "/System/Library/Fonts/Supplemental/Arial Bold.ttf",
       pystr "/Library/Fonts/Arial Bold.ttf",
       pystr "/usr/share/fonts/truetype/msttcorefonts/Arial_Bold.ttf",
       pystr "C:/Windows/Fonts/arialbd.ttf",
       pystr "/System/Library/Fonts/Supplemental/Arial.ttf",
       pystr "/Library/Fonts/Arial.ttf",
       pystr "/usr/share/fonts/truetype/msttcorefonts/Arial.ttf",
       pystr "C:/Windows/Fonts/arial.ttf" ]),
    (pystr "Helvetica",
     [ pystr "/System/Library/Fonts/Helvetica.ttc",
       pystr "/Library/Fonts/Helvetica.ttc" ]) ]

/-- The directory-scan list (source lines 118–123).  `expanduser` of the
home-relative entry is kept in its literal tilde form. -/
def font_dirs : List PyStr :=
  [ pystr "/Library/Fonts",
    pystr "/System/Library/Fonts",
    pystr "/System/Library/Fonts/Supplemental",
    pystr "~/Library/Fonts" ]

/-- The known-path loop of `find_font` (source lines 111–115): for each
table entry whose key is a substring of the lowered request, return the
first listed path that is a file. -/
def find_font_known (env : Env) (font_name : PyStr) : Option PyStr :=
  FONT_PATHS.findSome? fun e =>
    if pyIn (pyLower e.1) (pyLower font_name) then e.2.find? env.isFile
    else none

/-- The filename filter of the directory scan (source line 128):
`"arial" in f.lower() and f.endswith((".ttf", ".otf"))`. -/
def isArialFontFile (f : PyStr) : Bool :=
  pyIn (pystr "arial") (pyLower f) &&
    ((pystr ".ttf").isSuffixOf f || (pystr ".otf").isSuffixOf f)

/-- The directory-scan fallback of `find_font` (source lines 125–129):
first Arial-named font file in the scanned directories, path joined as
`dir ++ "/" ++ f`. -/
def find_font_scan (env : Env) : Option PyStr :=
  font_dirs.findSome? fun d =>
    match env.dirListing d with
    | none => none
    | some files => (files.find? isArialFontFile).map fun f => d ++ pystr "/" ++ f

/-- `find_font` (source lines 108–131). -/
def find_font (env : Env) (font_name : PyStr) : Option PyStr :=
  match find_font_known env font_name with
  | some p => some p
  | none => find_font_scan env

/-! ### Strategy 1: OpenSCAD render measurement (source lines 134–195) -/

/-- Bounding box `(min_x, max_x, min_y, max_y)` of the parsed vertex
coordinates; `none` when no vertex was found (the `min_x == inf` test). -/
def bbox : List (ℚ × ℚ) → Option (ℚ × ℚ × ℚ × ℚ)
  | [] => none
  | v :: vs =>
    some (vs.foldl
      (fun a p => (min a.1 p.1, max a.2.1 p.1, min a.2.2.1 p.2, max a.2.2.2 p.2))
      (v.1, v.1, v.2, v.2))

/-- `calculate_text_dimensions_openscad` (source lines 134–195).  The
result pairs the measured dimensions with the temporary files left on
disk.  The early `return None, None` on a non-zero exit or missing
output (line 164) and the `except` path (line 194) skip the `os.unlink`
cleanup of lines 183–184; the no-vertex exit runs after cleanup. -/
def calculate_text_dimensions_openscad (env : Env) (text : PyStr)
    (font_size : ℚ) : Option (ℚ × ℚ) × TempState :=
  if env.openscadAvailable = false then (none, ⟨false, false⟩)
  else
    match env.engine with
    | .exception stl => (none, ⟨true, stl⟩)
    | .done rc stl vs =>
      if rc ≠ 0 ∨ stl = false then (none, ⟨true, stl⟩)
      else
        match bbox vs with
        | none => (none, ⟨false, false⟩)
        | some b => (some (b.2.1 - b.1, b.2.2.2 - b.2.2.1), ⟨false, false⟩)

/-! ### Strategy 2: PIL font-metrics measurement (source lines 207–226) -/

/-- The PIL measurement block of `calculate_text_dimensions` (source
lines 207–226): `none` when the guard `font_path and os.path.isfile(...)`
fails, when the font library raises, or on the division by a zero cap
height (`ZeroDivisionError`); otherwise the corrected millimetre pair.
`reference_size = 100`; the width correction factor is `1.4`. -/
def pilMeasurement (env : Env) (font_path : Option PyStr) : Option (ℚ × ℚ) :=
  match font_path with
  | none => none
  | some p =>
    if p.isEmpty || !env.isFile p then none
    else
      match env.pilMetrics with
      | none => none
      | some m =>
        let cap_height_px : ℤ := m.capBbox.2.2.2 - m.capBbox.2.1
        if cap_height_px = 0 then none
        else
          let pixels_per_mm : ℚ := 100 / (cap_height_px : ℚ)
          let width_px : ℚ := ((m.textBbox.2.2.1 - m.textBbox.1 : ℤ) : ℚ)
          let height_px : ℚ := ((m.textBbox.2.2.2 - m.textBbox.2.1 : ℤ) : ℚ)
          some (width_px / pixels_per_mm * (14/10), height_px / pixels_per_mm)

/-! ### `calculate_text_dimensions` (source lines 198–231) -/

/-- `calculate_text_dimensions` (source lines 198–231): OpenSCAD first,
then PIL, then the character-count heuristic
`len(text) * font_size * 0.87` with height `font_size`. -/
def calculate_text_dimensions (env : Env) (text : PyStr) (font_size : ℚ)
    (font_path : Option PyStr) : ℚ × ℚ :=
  match (calculate_text_dimensions_openscad env text font_size).1 with
  | some wh => wh
  | none =>
    match pilMeasurement env font_path with
    | some wh => wh
    | none => ((text.length : ℚ) * font_size * (87/100), font_size)

/-! ### `calculate_optimal_label_size` (source lines 234–263) -/

/-- `calculate_optimal_label_size` (source lines 234–263).  Returns
`(label_width, label_height, text_width, text_height)`; the first two
are the rounded integers, the last two the raw measurements. -/
def calculate_optimal_label_size (env : Env) (text : PyStr) (font_size : ℚ)
    (use_icon : Bool) (icon_size : ℚ) : ℤ × ℤ × ℚ × ℚ :=
  let font_path := find_font env (pystr "Arial")
  let td := calculate_text_dimensions env text font_size font_path
  let text_width := td.1
  let text_height := td.2
  let padding := min_padding
  let border := border_width
  let content_width := text_width + 2 * padding
  let content_width :=
    if use_icon then content_width + icon_size + padding else content_width
  let content_height :=
    max font_size (if use_icon then icon_size else 0) + 2 * padding
  let label_width := content_width + 2 * border
  let label_height := content_height + 2 * border
  let min_width_for_magnets := 2 * magnet_inset + magnet_diameter
  let label_width := max (max label_width min_width_for_magnets) min_width
  let label_height := max label_height min_height
  (pyRound label_width, pyRound label_height, text_width, text_height)

/-! ### `export_stl` (source lines 310–336) and the two layer exports -/

/-- Outcome of one engine invocation in `export_stl`: the process return
code and whether the output file exists afterwards. -/
structure ExportRun where
  returncode : ℤ
  outputCreated : Bool
deriving DecidableEq

/-- `export_stl` (source lines 310–336): `False` on a non-zero exit,
otherwise `True` exactly when the output file exists.  The function is
total: no exception escapes. -/
def export_stl (run : ExportRun) : Bool :=
  if run.returncode ≠ 0 then false
  else run.outputCreated

/-- The two layer exports of `main` (source lines 442–443): both are
invoked unconditionally, one after the other. -/
def main_exports (run1 run2 : ExportRun) : Bool × Bool :=
  (export_stl run1, export_stl run2)

/-! ### Output-filename extension handling (source lines 408–412) -/

/-- The `.stl` suffix guarantee of `main` (source lines 409–412):
append `".stl"` unless the name already ends with it. -/
def ensure_stl_extension (name : PyStr) : PyStr :=
  if (pystr ".stl").isSuffixOf name then name else name ++ pystr ".stl"

/-! ### Concrete environments used in scenarios -/

/-- Environment in which every measurement strategy is unavailable: no
file exists, no directory lists, the engine is absent, the font library
raises. -/
def envNone : Env :=
  { isFile := fun _ => false
    dirListing := fun _ => none
    openscadAvailable := false
    engine := .exception false
    pilMetrics := none }

/-- Environment in which the engine is present but its render exits with
code 1 and produces no output file. -/
def envEngineFails : Env :=
  { envNone with openscadAvailable := true, engine := .done 1 false [] }


/-! ## Helper lemmas about `pyRound` -/

theorem floor_le_pyRound (x : ℚ) : ⌊x⌋ ≤ pyRound x := by
  unfold pyRound
  split_ifs <;> omega

theorem pyRound_le_floor_succ (x : ℚ) : pyRound x ≤ ⌊x⌋ + 1 := by
  unfold pyRound
  split_ifs <;> omega

theorem le_pyRound_of_le {n : ℤ} {x : ℚ} (h : (n : ℚ) ≤ x) : n ≤ pyRound x :=
  le_trans (Int.le_floor.2 h) (floor_le_pyRound x)

theorem pyRound_mono {x y : ℚ} (h : x ≤ y) : pyRound x ≤ pyRound y := by
  rcases lt_or_eq_of_le (Int.floor_le_floor h) with hlt | heq
  · calc pyRound x ≤ ⌊x⌋ + 1 := pyRound_le_floor_succ x
      _ ≤ ⌊y⌋ := hlt
      _ ≤ pyRound y := floor_le_pyRound y
  · unfold pyRound
    rw [← heq]
    split_ifs <;> first | omega | (exfalso; linarith)

theorem pyRound_down {x : ℚ} {n : ℤ} (hf : ⌊x⌋ = n) (h : x - n < 1/2) :
    pyRound x = n := by
  unfold pyRound
  rw [hf]
  exact if_pos h

theorem pyRound_up {x : ℚ} {n : ℤ} (hf : ⌊x⌋ = n) (h : 1/2 < x - n) :
    pyRound x = n + 1 := by
  unfold pyRound
  rw [hf, if_neg (by linarith), if_pos h]

theorem pyRound_half_even {x : ℚ} {n : ℤ} (hf : ⌊x⌋ = n) (hx : x - n = 1/2)
    (hn : n % 2 = 0) : pyRound x = n := by
  unfold pyRound
  rw [hf, if_neg (by rw [hx]; norm_num), if_neg (by rw [hx]; norm_num), if_pos hn]

theorem pyRound_half_odd {x : ℚ} {n : ℤ} (hf : ⌊x⌋ = n) (hx : x - n = 1/2)
    (hn : ¬ n % 2 = 0) : pyRound x = n + 1 := by
  unfold pyRound
  rw [hf, if_neg (by rw [hx]; norm_num), if_neg (by rw [hx]; norm_num), if_neg hn]

/-! ## Helper facts about the measurement chain -/

/-- When strategy 1 yields nothing and the PIL block yields nothing, the
estimator is the character-count heuristic (shared helper). -/
theorem text_dims_heuristic_eval {env : Env} {text : PyStr} {fs : ℚ}
    {fp : Option PyStr}
    (hs : (calculate_text_dimensions_openscad env text fs).1 = none)
    (hp : pilMeasurement env fp = none) :
    calculate_text_dimensions env text fs fp =
      ((text.length : ℚ) * fs * (87/100), fs) := by
  simp only [calculate_text_dimensions, hs, hp]

/-- Under `envNone` every strategy except the heuristic is unavailable
(shared helper). -/
theorem envNone_heuristic (text : PyStr) (fs : ℚ) :
    calculate_text_dimensions envNone text fs (find_font envNone (pystr "Arial")) =
      ((text.length : ℚ) * fs * (87/100), fs) :=
  text_dims_heuristic_eval rfl rfl

/-- Fully evaluated "ASA" scenario (shared helper): the heuristic gives a
31.32 mm text width, hence a 43.32 x 24 raw label, rounded to 43 x 24. -/
theorem asa_size_eval :
    calculate_optimal_label_size envNone (pystr "ASA") 12 false 10 =
      (43, 24, 3132/100, 12) := by
  simp only [calculate_optimal_label_size, envNone_heuristic]
  norm_num [min_padding, border_width, magnet_inset, magnet_diameter, min_width,
    min_height, show ((pystr "ASA").length : ℚ) = 3 from by norm_num [pystr]]
  constructor
  · exact pyRound_down (by norm_num) (by norm_num)
  · exact pyRound_down (by norm_num) (by norm_num)


/-! ## Claim C1: the "ASA" scenario -/

/-- C1 (counterexample): with text "ASA", font size 12, no icon, and all
measurement strategies unavailable, `calculate_optimal_label_size` does
not return label_width 30 and label_height 15: the heuristic text width
3 x 12 x 0.87 = 31.32 already pushes the raw label width to 43.32,
above both floors. -/
theorem asa_scenario_claim_false :
    ¬ ((calculate_optimal_label_size envNone (pystr "ASA") 12 false 10).1 = 30 ∧
       (calculate_optimal_label_size envNone (pystr "ASA") 12 false 10).2.1 = 15) := by
  rw [asa_size_eval]
  simp

/-- C1 (amended): with text "ASA", font size 12, no icon, and all
measurement strategies unavailable, `calculate_optimal_label_size`
returns label_width 43 (round of 31.32 + 8 + 4) and label_height 24
(round of 12 + 8 + 4), with raw text width 31.32 and raw height 12. -/
theorem asa_scenario :
    (calculate_optimal_label_size envNone (pystr "ASA") 12 false 10).1 = 43 ∧
    (calculate_optimal_label_size envNone (pystr "ASA") 12 false 10).2.1 = 24 ∧
    (calculate_optimal_label_size envNone (pystr "ASA") 12 false 10).2.2.1 = 3132/100 := by
  rw [asa_size_eval]
  exact ⟨rfl, rfl, rfl⟩

/-! ## Claim C2: size floors -/

/-- C2: for every environment, text, font size and icon configuration,
the label dimensions returned by `calculate_optimal_label_size` satisfy
label_width ≥ max(2 x magnet_inset + magnet_diameter, min_width) = 30
and label_height ≥ min_height = 15, after the final rounding. -/
theorem label_size_floors (env : Env) (text : PyStr) (font_size : ℚ)
    (use_icon : Bool) (icon_size : ℚ) :
    30 ≤ (calculate_optimal_label_size env text font_size use_icon icon_size).1 ∧
    15 ≤ (calculate_optimal_label_size env text font_size use_icon icon_size).2.1 := by
  simp only [calculate_optimal_label_size]
  constructor
  · apply le_pyRound_of_le
    calc ((30:ℤ):ℚ) = min_width := by norm_num [min_width]
      _ ≤ _ := le_max_right _ _
  · apply le_pyRound_of_le
    calc ((15:ℤ):ℚ) = min_height := by norm_num [min_height]
      _ ≤ _ := le_max_right _ _


/-! ## Claim C3: temporary-file cleanup in the render measurement -/

/-- C3 (failing input): when the engine is present but its render exits
with code 1 (no output file produced), `calculate_text_dimensions_openscad`
returns through the early `return None, None` of source line 165, which
precedes the `os.unlink` cleanup of lines 183-184: the temporary `.scad`
input file is left on disk, contradicting cleanup on every exit path. -/
theorem scad_leak_on_nonzero_exit :
    calculate_text_dimensions_openscad envEngineFails (pystr "ASA") 12 =
      (none, ⟨true, false⟩) ∧
    (calculate_text_dimensions_openscad envEngineFails (pystr "ASA") 12).2.scadLeft = true :=
  ⟨rfl, rfl⟩

/-! ## Claim C4: the terminal heuristic is exact -/

/-- C4: whenever the OpenSCAD render measurement yields no result and the
PIL font-metrics block yields no result (no usable font file, or the
measurement throws), `calculate_text_dimensions` returns exactly
`len(text) * font_size * 0.87` for the width and `font_size` for the
height, for every text and font size. -/
theorem heuristic_terminal_exact (env : Env) (text : PyStr) (font_size : ℚ)
    (font_path : Option PyStr)
    (hs : (calculate_text_dimensions_openscad env text font_size).1 = none)
    (hp : pilMeasurement env font_path = none) :
    calculate_text_dimensions env text font_size font_path =
      ((text.length : ℚ) * font_size * (87/100), font_size) := by
  simp only [calculate_text_dimensions, hs, hp]

/-- C4 (witness): the concrete instance "ASA" at font size 12 under the
all-unavailable environment. -/
theorem heuristic_terminal_exact_witness :
    calculate_text_dimensions envNone (pystr "ASA") 12 none =
      (((pystr "ASA").length : ℚ) * 12 * (87/100), 12) :=
  heuristic_terminal_exact envNone (pystr "ASA") 12 none rfl rfl

/-! ## Claim C5: positivity of the estimated dimensions -/

/-- C5 (counterexample): for the empty text, with every external strategy
unavailable, the heuristic returns width 0 * 12 * 0.87 = 0, which is not
positive. -/
theorem text_dims_positive_claim_false :
    ¬ (0 < (calculate_text_dimensions envNone [] 12 none).1) := by
  rw [@text_dims_heuristic_eval envNone [] 12 none rfl rfl]
  norm_num

/-- C5 (amended): for every nonempty text and positive font size,
provided each external strategy yields positive dimensions whenever it
yields a result at all, `calculate_text_dimensions` returns a pair of
positive rationals, regardless of which of the three strategies fires. -/
theorem text_dims_positive (env : Env) (text : PyStr) (font_size : ℚ)
    (font_path : Option PyStr)
    (hscad : ∀ w h, (calculate_text_dimensions_openscad env text font_size).1 = some (w, h) →
      0 < w ∧ 0 < h)
    (hpil : ∀ w h, pilMeasurement env font_path = some (w, h) → 0 < w ∧ 0 < h)
    (htext : text ≠ []) (hfs : 0 < font_size) :
    0 < (calculate_text_dimensions env text font_size font_path).1 ∧
    0 < (calculate_text_dimensions env text font_size font_path).2 := by
  rcases h1 : (calculate_text_dimensions_openscad env text font_size).1 with _ | ⟨w, h⟩
  · rcases h2 : pilMeasurement env font_path with _ | ⟨w, h⟩
    · rw [text_dims_heuristic_eval h1 h2]
      refine ⟨?_, hfs⟩
      have hl : 0 < (text.length : ℚ) := by
        exact_mod_cast List.length_pos.2 htext
      positivity
    · simp only [calculate_text_dimensions, h1, h2]
      exact hpil w h h2
  · simp only [calculate_text_dimensions, h1]
    exact hscad w h h1

/-- C5 (witness): the concrete instance "ASA" at font size 12 under the
all-unavailable environment, where the heuristic fires. -/
theorem text_dims_positive_witness :
    0 < (calculate_text_dimensions envNone (pystr "ASA") 12 none).1 ∧
    0 < (calculate_text_dimensions envNone (pystr "ASA") 12 none).2 :=
  text_dims_positive envNone (pystr "ASA") 12 none
    (fun w h hwh => by
      rw [show (calculate_text_dimensions_openscad envNone (pystr "ASA") 12).1 = none
        from rfl] at hwh
      cases hwh)
    (fun w h hwh => by
      rw [show pilMeasurement envNone none = none from rfl] at hwh
      cases hwh)
    (by simp [pystr]) (by norm_num)


/-! ## Claim C6: monotonicity in text length -/

/-- C6: holding the font size and the icon settings fixed, and with the
character-count heuristic as the measurement strategy, both label
dimensions returned by `calculate_optimal_label_size` are monotonically
non-decreasing in the length of the text (the data model makes
font sizes positive; `0 ≤ font_size` suffices).  No floor-threshold
hypothesis is needed: monotonicity holds through the floors and the
rounding. -/
theorem label_size_monotone_in_length (env : Env) (t1 t2 : PyStr)
    (font_size icon_size : ℚ) (use_icon : Bool)
    (hs : (calculate_text_dimensions_openscad env t1 font_size).1 = none)
    (hp : pilMeasurement env (find_font env (pystr "Arial")) = none)
    (hfs : 0 ≤ font_size) (hlen : t1.length ≤ t2.length) :
    (calculate_optimal_label_size env t1 font_size use_icon icon_size).1 ≤
      (calculate_optimal_label_size env t2 font_size use_icon icon_size).1 ∧
    (calculate_optimal_label_size env t1 font_size use_icon icon_size).2.1 ≤
      (calculate_optimal_label_size env t2 font_size use_icon icon_size).2.1 := by
  have hs2 : (calculate_text_dimensions_openscad env t2 font_size).1 = none := hs
  simp only [calculate_optimal_label_size, text_dims_heuristic_eval hs hp,
    text_dims_heuristic_eval hs2 hp]
  constructor
  · apply pyRound_mono
    have hc : (t1.length : ℚ) ≤ (t2.length : ℚ) := by exact_mod_cast hlen
    split_ifs <;> gcongr
  · exact le_refl _

/-- C6 (witness): under the all-unavailable environment, growing the text
from "A" to "ASA" at font size 12 does not shrink the label. -/
theorem label_size_monotone_in_length_witness :
    (calculate_optimal_label_size envNone (pystr "A") 12 false 10).1 ≤
      (calculate_optimal_label_size envNone (pystr "ASA") 12 false 10).1 ∧
    (calculate_optimal_label_size envNone (pystr "A") 12 false 10).2.1 ≤
      (calculate_optimal_label_size envNone (pystr "ASA") 12 false 10).2.1 :=
  label_size_monotone_in_length envNone (pystr "A") (pystr "ASA") 12 10 false
    rfl rfl (by norm_num) (by decide)


/-- Variant of `pyRound_half_odd` with the successor given explicitly
(shared helper for numeral goals). -/
theorem pyRound_half_odd_eq {x : ℚ} {n m : ℤ} (hf : ⌊x⌋ = n) (hx : x - n = 1/2)
    (hn : ¬ n % 2 = 0) (hm : n + 1 = m) : pyRound x = m :=
  hm ▸ pyRound_half_odd hf hx hn

/-! ## Claim C7: output filename extension -/

/-- C7: a filename already ending in ".stl" is left unchanged, a filename
not ending in ".stl" gets ".stl" appended exactly once, and consequently
every name produced by the extension step ends in ".stl". -/
theorem ensure_stl_spec (name : PyStr) :
    ((pystr ".stl").isSuffixOf name = true → ensure_stl_extension name = name) ∧
    ((pystr ".stl").isSuffixOf name = false →
      ensure_stl_extension name = name ++ pystr ".stl") ∧
    (pystr ".stl").isSuffixOf (ensure_stl_extension name) = true := by
  refine ⟨fun h => by simp [ensure_stl_extension, h],
    fun h => by simp [ensure_stl_extension, h], ?_⟩
  unfold ensure_stl_extension
  split_ifs with h
  · exact h
  · exact List.isSuffixOf_iff_suffix.2 (List.suffix_append name (pystr ".stl"))

/-- C7 (witness): a name without the suffix gets it appended; a name with
the suffix is unchanged. -/
theorem ensure_stl_spec_witness :
    ensure_stl_extension (pystr "label_asa_color1") =
      pystr "label_asa_color1" ++ pystr ".stl" ∧
    ensure_stl_extension (pystr "label_asa_color2.stl") =
      pystr "label_asa_color2.stl" :=
  ⟨(ensure_stl_spec (pystr "label_asa_color1")).2.1 (by decide),
   (ensure_stl_spec (pystr "label_asa_color2.stl")).1 (by decide)⟩

/-! ## Claim C8: export failure is isolated -/

/-- C8: when the engine exits non-zero, or the expected output file is
missing, `export_stl` returns failure (it is a total function — no
exception escapes), and the sibling layer export is still attempted:
the second component of `main_exports` is the second invocation's own
result, whatever the first returned. -/
theorem export_failure_isolated (run1 run2 : ExportRun)
    (h : run1.returncode ≠ 0 ∨ run1.outputCreated = false) :
    export_stl run1 = false ∧
    main_exports run1 run2 = (false, export_stl run2) := by
  have h1 : export_stl run1 = false := by
    unfold export_stl
    rcases h with h | h
    · rw [if_pos h]
    · split_ifs <;> simp [h]
  exact ⟨h1, by simp [main_exports, h1]⟩

/-- C8 (witness): a first layer whose render exits with code 1, a second
layer whose render succeeds. -/
theorem export_failure_isolated_witness :
    export_stl ⟨1, true⟩ = false ∧
    main_exports ⟨1, true⟩ ⟨0, true⟩ = (false, export_stl ⟨0, true⟩) :=
  export_failure_isolated ⟨1, true⟩ ⟨0, true⟩ (Or.inl (by decide))

/-! ## Claim C9: rounding ties go to the even integer -/

/-- C9: the rounding applied to the final label dimensions is
round-half-to-even: on a tie (fractional part exactly 1/2) the result is
the even one of the two enclosing integers — 42.5 rounds to 42, 43.5 to
44 — and concretely in the sizer a raw width of 55.5 (ten characters at
font size 5) rounds up to 56 while a raw width of 142.5 (ten characters
at font size 15) rounds down to 142. -/
theorem rounding_half_to_even (x : ℚ) (h : x - ⌊x⌋ = 1/2) :
    Even (pyRound x) ∧ (pyRound x = ⌊x⌋ ∨ pyRound x = ⌊x⌋ + 1) ∧
    pyRound (85/2) = 42 ∧ pyRound (87/2) = 44 ∧
    (calculate_optimal_label_size envNone (pystr "ABCDEFGHIJ") 5 false 10).1 = 56 ∧
    (calculate_optimal_label_size envNone (pystr "ABCDEFGHIJ") 15 false 10).1 = 142 := by
  have h1 : ¬ (x - ⌊x⌋ < 1/2) := by rw [h]; norm_num
  have h2 : ¬ ((1:ℚ)/2 < x - ⌊x⌋) := by rw [h]; norm_num
  refine ⟨?_, ?_, ?_, ?_, ?_, ?_⟩
  · unfold pyRound
    rw [if_neg h1, if_neg h2]
    split_ifs with hp
    · exact Int.even_iff.2 hp
    · have ho : ⌊x⌋ % 2 = 1 := by omega
      exact (Int.odd_iff.2 ho).add_one
  · unfold pyRound
    rw [if_neg h1, if_neg h2]
    split_ifs
    · exact Or.inl rfl
    · exact Or.inr rfl
  · exact pyRound_half_even (by norm_num) (by norm_num) (by norm_num)
  · exact pyRound_half_odd_eq (n := 43) (by norm_num) (by norm_num) (by norm_num)
      (by norm_num)
  · simp only [calculate_optimal_label_size, envNone_heuristic]
    norm_num [min_padding, border_width, magnet_inset, magnet_diameter, min_width,
      min_height, show ((pystr "ABCDEFGHIJ").length : ℚ) = 10 from by norm_num [pystr]]
    exact pyRound_half_odd_eq (n := 55) (by norm_num) (by norm_num) (by norm_num)
      (by norm_num)
  · simp only [calculate_optimal_label_size, envNone_heuristic]
    norm_num [min_padding, border_width, magnet_inset, magnet_diameter, min_width,
      min_height, show ((pystr "ABCDEFGHIJ").length : ℚ) = 10 from by norm_num [pystr]]
    exact pyRound_half_even (by norm_num) (by norm_num) (by norm_num)

/-- C9 (witness): the tie at 42.5. -/
theorem rounding_half_to_even_witness : pyRound (85/2) = 42 :=
  (rounding_half_to_even (85/2) (by norm_num)).2.2.1


/-! ## Claim C10: the directory-scan fallback ignores the family name -/

/-- Environment for the C10 witness: no known font path exists; the
`/Library/Fonts` directory lists a non-Arial file followed by an Arial
file; the other directories do not exist. -/
def envTimes : Env :=
  { envNone with
    dirListing := fun d =>
      if d = pystr "/Library/Fonts" then
        some [pystr "Courier New.ttf", pystr "Arial Black.ttf"]
      else none }

/-- C10: when the known-path loop finds nothing for the requested family,
`find_font` returns exactly the directory-scan result, which does not
depend on the family name at all; and the scan returns `none` precisely
when no listed directory contains a file whose lowered name contains
"arial" with a `.ttf` or `.otf` extension. -/
theorem find_font_fallback_ignores_family (env : Env) (fam : PyStr)
    (h : find_font_known env fam = none) :
    find_font env fam = find_font_scan env ∧
    (find_font_scan env = none ↔
      ∀ d ∈ font_dirs, ∀ files, env.dirListing d = some files →
        ∀ f ∈ files, isArialFontFile f = false) := by
  constructor
  · unfold find_font
    rw [h]
  · unfold find_font_scan
    rw [List.findSome?_eq_none_iff]
    constructor
    · intro hall d hd files hfiles f hf
      have := hall d hd
      rw [hfiles] at this
      simp only [Option.map_eq_none'] at this
      exact Bool.not_eq_true _ ▸ (List.find?_eq_none.1 this) f hf
    · intro hall d hd
      rcases hdir : env.dirListing d with _ | files
      · simp
      · simp only [Option.map_eq_none']
        exact List.find?_eq_none.2 fun f hf =>
          (Bool.not_eq_true _).symm ▸ hall d hd files hdir f hf

/-- C10 (witness): a request for the unrelated family "Times" falls to
the directory scan and returns the first Arial-named font file. -/
theorem find_font_fallback_ignores_family_witness :
    find_font envTimes (pystr "Times") = find_font_scan envTimes ∧
    find_font envTimes (pystr "Times") =
      some (pystr "/Library/Fonts/Arial Black.ttf") :=
  ⟨(find_font_fallback_ignores_family envTimes (pystr "Times") rfl).1, rfl⟩

end ExportLabel
